import Mathlib

/-!
Verification of the AirDCC transceiver-control driver (AirDcc.cpp / AirDcc.h).

The driver talks to a CC1101 RF modem over SPI.  Each public operation
(`startModem`, `changeChannel`, `keepAlive`) is a straight-line sequence of
pin writes and SPI byte transfers.  We embed each operation as a pure
function from the handle state to a `StepResult`: the updated handle state,
the list of bus events the call emits (in order), and a flag recording
whether the call read one of the fixed lookup tables out of bounds
(undefined behaviour in the C++ source, where the arrays are indexed
without any bounds check).
-/

/-- One observable bus event, in source order.  `pinWrite p h` is
`digitalWrite(p, h ? HIGH : LOW)`; `transfer b` is `SPI.transfer(b)`;
`beginTrans clk msb mode` is `SPI.beginTransaction(SPISettings(clk, msb, mode))`;
`delayMs n` is `delay(n)`. -/
inductive Event where
  | pinWrite (pin : Nat) (high : Bool)
  | spiBegin
  | beginTrans (clock : Nat) (msbFirst : Bool) (mode : Nat)
  | endTrans
  | transfer (b : Nat)
  | delayMs (ms : Nat)
deriving DecidableEq, Repr

/-- Handle state: the private fields of class `AirDcc`
(`_enable_pin`, `_transmit`, `_channel`, `_power`).  `_transmit` is stored
from a `bool` argument and only ever tested for truth, so we model it as
`Bool`; the byte-valued fields are modelled as `Nat`. -/
structure AirDcc where
  enable_pin : Nat
  transmit : Bool
  channel : Nat
  power : Nat
deriving DecidableEq, Repr

namespace AirDcc

/-- Command byte `#define RX 0x34`. -/
def RX : Nat := 0x34

/-- Command byte `#define TX 0x35`. -/
def TX : Nat := 0x35

/-- Command byte `#define STOP 0x36`. -/
def STOP : Nat := 0x36

/-- Register code `#define PATABLE 0x3E`. -/
def PATABLE : Nat := 0x3E

/-- Register code `#define CHAN 0x0A`. -/
def CHAN : Nat := 0x0A

/-- The 48-byte CC1101 configuration blob `initData` from the source. -/
def initData : List Nat :=
  [0x40, 0x2E, 0x2E, 0x0D, 0x07, 0xD3, 0x91, 0xFF, 0x04,
   0x32, 0x00, 0x4B, 0x06, 0x00, 0x22, 0xB7, 0x55, 0x8A,
   0x93, 0x00, 0x23, 0x3B, 0x50, 0x07, 0x30, 0x18, 0x16,
   0x6C, 0x03, 0x40, 0x91, 0x87, 0x6B, 0xF8, 0x56, 0x10,
   0xE9, 0x2A, 0x00, 0x1F, 0x40, 0x00, 0x59, 0x7F, 0x3F,
   0x81, 0x35, 0x09]

/-- The 17-entry channel table `channels` (designations 0-16). -/
def channels : List Nat :=
  [0x4B, 0x45, 0x33, 0x27, 0x1B, 0x15, 0x0F, 0x03, 0x5E,
   0x58, 0x52, 0x3E, 0x39, 0x2C, 0x21, 0x89, 0x37]

/-- The 11-entry PATABLE power table `powers` (designations 0-10). -/
def powers : List Nat :=
  [0x03, 0x15, 0x1C, 0x27, 0x66, 0x8E, 0x89,
   0xCD, 0xC4, 0xC1, 0xC0]

/-- Result of one driver call: the new handle state, the emitted bus
events in order, and whether a lookup table was indexed out of bounds
(an undefined read in the C++ source; when `oob` is true the emitted
bytes after that point are not meaningful). -/
structure StepResult where
  state : AirDcc
  trace : List Event
  oob : Bool
deriving DecidableEq, Repr

/-- Embedding of `AirDcc::startModem(channel, transmit, power)`.
Mirrors the source line by line: the three fields are stored first;
`powerCode` defaults to `0x89` (rx) and is replaced by `powers[_power]`
only in tx mode; `channelCode = channels[_channel]` is read
unconditionally; then the pin/SPI sequence of lines 89-124. -/
def startModem (s : AirDcc) (channel : Nat) (transmit : Bool) (power : Nat) :
    StepResult :=
  let s1 : AirDcc :=
    { s with channel := channel, transmit := transmit, power := power }
  let powerCode : Nat := if s1.transmit then powers.getD s1.power 0 else 0x89
  let channelCode : Nat := channels.getD s1.channel 0
  let mode : Nat := if s1.transmit then TX else RX
  { state := s1
    trace :=
      [Event.pinWrite s1.enable_pin true,
       Event.spiBegin, Event.delayMs 100,
       Event.beginTrans 8000000 true 0,
       Event.pinWrite s1.enable_pin false, Event.transfer STOP,
       Event.pinWrite s1.enable_pin true,
       Event.pinWrite s1.enable_pin false]
      ++ initData.map Event.transfer
      ++ [Event.pinWrite s1.enable_pin true,
          Event.pinWrite s1.enable_pin false, Event.transfer PATABLE,
          Event.transfer powerCode, Event.pinWrite s1.enable_pin true,
          Event.pinWrite s1.enable_pin false, Event.transfer CHAN,
          Event.transfer channelCode, Event.pinWrite s1.enable_pin true,
          Event.pinWrite s1.enable_pin false, Event.transfer mode,
          Event.pinWrite s1.enable_pin true,
          Event.endTrans]
    oob := decide (channels.length ≤ s1.channel)
      || (s1.transmit && decide (powers.length ≤ s1.power)) }

/-- Embedding of `AirDcc::changeChannel(channel)`.  Stores `_channel`
first; reads `channels[_channel]` and, unconditionally, `powers[_power]`
(the source has no rx/tx distinction for the PATABLE write here); then
the pin/SPI sequence of lines 140-165 (no `delay`, no blob). -/
def changeChannel (s : AirDcc) (channel : Nat) : StepResult :=
  let s1 : AirDcc := { s with channel := channel }
  let channelCode : Nat := channels.getD s1.channel 0
  let powerCode : Nat := powers.getD s1.power 0
  let mode : Nat := if s1.transmit then TX else RX
  { state := s1
    trace :=
      [Event.spiBegin,
       Event.beginTrans 8000000 true 0,
       Event.pinWrite s1.enable_pin false, Event.transfer STOP,
       Event.pinWrite s1.enable_pin true,
       Event.pinWrite s1.enable_pin false, Event.transfer PATABLE,
       Event.transfer powerCode, Event.pinWrite s1.enable_pin true,
       Event.pinWrite s1.enable_pin false, Event.transfer CHAN,
       Event.transfer channelCode, Event.pinWrite s1.enable_pin true,
       Event.pinWrite s1.enable_pin false, Event.transfer mode,
       Event.pinWrite s1.enable_pin true,
       Event.endTrans]
    oob := decide (channels.length ≤ s1.channel)
      || decide (powers.length ≤ s1.power) }

/-- Embedding of `AirDcc::keepAlive()`: one framed transaction carrying
the single mode byte chosen by the stored `_transmit` flag (lines 173-184).
No field is written and no table is read. -/
def keepAlive (s : AirDcc) : StepResult :=
  { state := s
    trace :=
      [Event.spiBegin,
       Event.beginTrans 8000000 true 0,
       Event.pinWrite s.enable_pin false,
       Event.transfer (if s.transmit then TX else RX),
       Event.pinWrite s.enable_pin true,
       Event.endTrans]
    oob := false }

/-- One select-line bracket carrying a payload of bytes: assert the
select line low, transfer the bytes, restore it high.  Used to phrase
the spec's expected transaction sequences. -/
def specFrame (pin : Nat) (payload : List Nat) : List Event :=
  Event.pinWrite pin false :: payload.map Event.transfer
    ++ [Event.pinWrite pin true]

/-- The spec's expected `startModem` bus sequence (spec section 8, first
bullet): idle the select line, acquire the bus, settle delay, fixed
transaction parameters, then stop / 48-byte blob / power / channel / mode,
each in its own select bracket, then end the transaction. -/
def specStartSequence (pin powerByte chanByte modeByte : Nat) : List Event :=
  [Event.pinWrite pin true, Event.spiBegin, Event.delayMs 100,
   Event.beginTrans 8000000 true 0]
  ++ specFrame pin [STOP]
  ++ specFrame pin initData
  ++ specFrame pin [PATABLE, powerByte]
  ++ specFrame pin [CHAN, chanByte]
  ++ specFrame pin [modeByte]
  ++ [Event.endTrans]

/-- The spec's expected `changeChannel` bus sequence: like the start
sequence but with no settle delay and no configuration blob. -/
def specChangeSequence (pin powerByte chanByte modeByte : Nat) : List Event :=
  [Event.spiBegin, Event.beginTrans 8000000 true 0]
  ++ specFrame pin [STOP]
  ++ specFrame pin [PATABLE, powerByte]
  ++ specFrame pin [CHAN, chanByte]
  ++ specFrame pin [modeByte]
  ++ [Event.endTrans]

/-- The spec's expected `keepAlive` bus sequence: a single select bracket
carrying only the mode byte. -/
def specKeepAliveSequence (pin modeByte : Nat) : List Event :=
  [Event.spiBegin, Event.beginTrans 8000000 true 0]
  ++ specFrame pin [modeByte]
  ++ [Event.endTrans]

/-- Scans a trace tracking whether the given select line is currently
asserted (low); `low` is the select state on entry.  Returns `true` iff
every byte transfer happens while the select line is asserted. -/
def transfersBracketed (pin : Nat) : List Event → Bool → Bool
  | [], _ => true
  | Event.pinWrite q high :: rest, low =>
      transfersBracketed pin rest (if q = pin then !high else low)
  | Event.transfer _ :: rest, low => low && transfersBracketed pin rest low
  | _ :: rest, low => transfersBracketed pin rest low

/-- The select-line state (asserted low?) after a trace, starting from
`low` on entry. -/
def finalSelLow (pin : Nat) : List Event → Bool → Bool
  | [], low => low
  | Event.pinWrite q high :: rest, low =>
      finalSelLow pin rest (if q = pin then !high else low)
  | _ :: rest, low => finalSelLow pin rest low

/-- Every bus acquisition in the trace uses the fixed transaction
parameters: 8 MHz clock, most-significant-bit first, SPI mode 0. -/
def fixedParams : List Event → Bool
  | [] => true
  | Event.beginTrans clock msb mode :: rest =>
      decide (clock = 8000000) && msb && decide (mode = 0) && fixedParams rest
  | _ :: rest => fixedParams rest

/-- The trace's final event ends the bus transaction. -/
def endsWithEndTrans : List Event → Bool
  | [] => false
  | [e] => decide (e = Event.endTrans)
  | _ :: rest => endsWithEndTrans rest

/-- The spec's framing contract for one operation's trace on select line
`pin`: transfers only under an asserted select line, select line restored
high at the end, fixed transaction parameters throughout, and the bus
transaction ended as the final event. -/
def framedOk (pin : Nat) (tr : List Event) : Bool :=
  transfersBracketed pin tr false && !(finalSelLow pin tr false)
    && fixedParams tr && endsWithEndTrans tr

/-- One public driver call, for reasoning about call sequences. -/
inductive Op where
  | start (channel : Nat) (transmit : Bool) (power : Nat)
  | change (channel : Nat)
  | alive
deriving DecidableEq, Repr

/-- The handle state after one call. -/
def runOp (s : AirDcc) : Op → AirDcc
  | Op.start c t p => (startModem s c t p).state
  | Op.change c => (changeChannel s c).state
  | Op.alive => (keepAlive s).state

/-- The handle state after a sequence of calls. -/
def runOps : AirDcc → List Op → AirDcc
  | s, [] => s
  | s, op :: ops => runOps (runOp s op) ops

/-- Modelled from the spec's words (claim C7): the (channel, direction,
power) values most recently pushed to the device, after each call:
`startModem` pushes all three arguments, `changeChannel` pushes the new
channel only, `keepAlive` pushes nothing new. -/
def pushedAfter : Nat × Bool × Nat → Op → Nat × Bool × Nat
  | _, Op.start c t p => (c, t, p)
  | v, Op.change c => (c, v.2.1, v.2.2)
  | v, Op.alive => v

/-- C1: for every channel ordinal c in [0,16] and any power p,
`startModem(c, Receive, p)` emits exactly: select line idled, bus acquired,
the fixed settle delay, fixed transaction parameters, then stop, the
48-byte configuration blob in a single framed transaction, a power write
carrying the fixed receive-power code 0x89, a channel write carrying
`channels[c]`, and a mode write carrying the receive-enable code — in that
order, each in its own select-line bracket — with no out-of-bounds table
access. -/
theorem startModem_receive_sequence (s : AirDcc) (c p : Nat) (hc : c ≤ 16) :
    (startModem s c false p).trace
        = specStartSequence s.enable_pin 0x89 (channels.getD c 0) RX
  ∧ (startModem s c false p).oob = false
  ∧ initData.length = 48 := by
  refine ⟨?_, ?_, rfl⟩
  · simp [startModem, specStartSequence, specFrame]
  · simp [startModem, channels]
    omega

theorem startModem_receive_sequence_witness :
    (6 : Nat) ≤ 16
  ∧ ((startModem (AirDcc.mk 7 false 0 0) 6 false 3).trace
        = specStartSequence (AirDcc.mk 7 false 0 0).enable_pin 0x89
            (channels.getD 6 0) RX
    ∧ (startModem (AirDcc.mk 7 false 0 0) 6 false 3).oob = false
    ∧ initData.length = 48) :=
  ⟨by decide, startModem_receive_sequence (AirDcc.mk 7 false 0 0) 6 3 (by decide)⟩

/-- C2: for valid channel c in [0,16] and power p in [0,10], `startModem`
in Transmit writes `powers[p]` to the power register and the
transmit-enable code to the mode register; in Receive it writes the fixed
receive-power code 0x89 — independent of the power argument p — and the
receive-enable code. -/
theorem startModem_power_and_mode (s : AirDcc) (c p : Nat)
    (hc : c ≤ 16) (hp : p ≤ 10) :
    (startModem s c true p).trace
        = specStartSequence s.enable_pin (powers.getD p 0) (channels.getD c 0) TX
  ∧ (startModem s c true p).oob = false
  ∧ (startModem s c false p).trace
        = specStartSequence s.enable_pin 0x89 (channels.getD c 0) RX := by
  refine ⟨?_, ?_, ?_⟩
  · simp [startModem, specStartSequence, specFrame]
  · simp [startModem, channels, powers]
    omega
  · simp [startModem, specStartSequence, specFrame]

theorem startModem_power_and_mode_witness :
    (6 : Nat) ≤ 16 ∧ (5 : Nat) ≤ 10
  ∧ ((startModem (AirDcc.mk 7 false 0 0) 6 true 5).trace
        = specStartSequence (AirDcc.mk 7 false 0 0).enable_pin
            (powers.getD 5 0) (channels.getD 6 0) TX
    ∧ (startModem (AirDcc.mk 7 false 0 0) 6 true 5).oob = false
    ∧ (startModem (AirDcc.mk 7 false 0 0) 6 false 5).trace
        = specStartSequence (AirDcc.mk 7 false 0 0).enable_pin 0x89
            (channels.getD 6 0) RX) :=
  ⟨by decide, by decide,
    startModem_power_and_mode (AirDcc.mk 7 false 0 0) 6 5 (by decide) (by decide)⟩

/-- C4: `keepAlive` emits exactly one framed transaction whose payload is
the single mode byte selected by the stored direction, and leaves the
handle state (channel, power, direction, select line) unchanged. -/
theorem keepAlive_single_mode_frame (s : AirDcc) :
    (keepAlive s).trace
        = specKeepAliveSequence s.enable_pin (if s.transmit then TX else RX)
  ∧ (keepAlive s).state = s :=
  ⟨by simp [keepAlive, specKeepAliveSequence, specFrame], rfl⟩

/-- C5: with no intervening `changeChannel` or `startModem`, every
repetition of `keepAlive` emits a byte-identical trace: after any number
of prior `keepAlive` calls, the next call's trace equals the first
call's. -/
theorem keepAlive_repeat_identical (s : AirDcc) (n : Nat) :
    (keepAlive (runOps s (List.replicate n Op.alive))).trace
        = (keepAlive s).trace := by
  have h : runOps s (List.replicate n Op.alive) = s := by
    induction n with
    | zero => rfl
    | succ k ih => simpa [List.replicate_succ, runOps, runOp, keepAlive] using ih
  rw [h]

/-- C9: `startModem` and `changeChannel` store their arguments into the
handle unconditionally — the stored state is mutated for every input,
including out-of-range ordinals (shown by the out-of-bounds flag being
set at channel 17 while the state is nevertheless updated); there is no
rejection path that leaves the handle unchanged. -/
theorem state_mutated_unconditionally (s : AirDcc) (c : Nat) (t : Bool) (p : Nat) :
    (startModem s c t p).state = AirDcc.mk s.enable_pin t c p
  ∧ (changeChannel s c).state = AirDcc.mk s.enable_pin s.transmit c s.power
  ∧ (startModem s 17 t p).state = AirDcc.mk s.enable_pin t 17 p
  ∧ (startModem s 17 t p).oob = true
  ∧ (changeChannel s 17).state = AirDcc.mk s.enable_pin s.transmit 17 s.power
  ∧ (changeChannel s 17).oob = true := by
  refine ⟨rfl, rfl, rfl, ?_, rfl, ?_⟩
  · simp [startModem, channels]
  · simp [changeChannel, channels]

/-- C10: the trace of `keepAlive` depends only on the handle's select
line and stored direction; two states agreeing on those but differing
arbitrarily in stored channel and power produce identical traces. -/
theorem keepAlive_depends_only_on_direction (s1 s2 : AirDcc)
    (hpin : s1.enable_pin = s2.enable_pin) (hdir : s1.transmit = s2.transmit) :
    (keepAlive s1).trace = (keepAlive s2).trace := by
  simp [keepAlive, hpin, hdir]

/-- C3 counterexample: after `startModem(3, Receive, 5)` the handle's
stored direction is Receive, yet `changeChannel(1)` writes `powers[5]`
(0x8E) to the power register, not the fixed receive-power code 0x89 the
claim requires; the emitted trace therefore differs from the claimed
one. -/
theorem changeChannel_receive_power_counterexample :
    (changeChannel (startModem (AirDcc.mk 7 false 0 0) 3 false 5).state 1).trace
        = specChangeSequence 7 0x8E (channels.getD 1 0) RX
  ∧ powers.getD 5 0 = 0x8E
  ∧ specChangeSequence 7 0x8E (channels.getD 1 0) RX
      ≠ specChangeSequence 7 0x89 (channels.getD 1 0) RX := by decide

/-- C3 (amended): for a stored power index in [0,10] and a new channel
c in [0,16], `changeChannel(c)` emits no configuration blob and no settle
delay; it emits exactly stop, a power write carrying `powers[stored power]`
regardless of the stored direction, a channel write carrying
`channels[c]`, and a mode write matching the stored direction, each in
its own select bracket; and it updates only the stored channel. -/
theorem changeChannel_sequence (s : AirDcc) (c : Nat)
    (hc : c ≤ 16) (hp : s.power ≤ 10) :
    (changeChannel s c).trace
        = specChangeSequence s.enable_pin (powers.getD s.power 0)
            (channels.getD c 0) (if s.transmit then TX else RX)
  ∧ (changeChannel s c).state = AirDcc.mk s.enable_pin s.transmit c s.power
  ∧ (changeChannel s c).oob = false
  ∧ Event.delayMs 100 ∉ (changeChannel s c).trace
  ∧ ¬ List.IsInfix (initData.map Event.transfer) (changeChannel s c).trace := by
  refine ⟨?_, rfl, ?_, ?_, ?_⟩
  · simp [changeChannel, specChangeSequence, specFrame]
  · simp [changeChannel, channels, powers]
    omega
  · simp [changeChannel]
  · intro h
    have hlen := h.length_le
    simp [changeChannel, initData] at hlen

theorem changeChannel_sequence_witness :
    (2 : Nat) ≤ 16 ∧ (AirDcc.mk 7 false 3 5).power ≤ 10
  ∧ ((changeChannel (AirDcc.mk 7 false 3 5) 2).trace
        = specChangeSequence (AirDcc.mk 7 false 3 5).enable_pin
            (powers.getD (AirDcc.mk 7 false 3 5).power 0) (channels.getD 2 0)
            (if (AirDcc.mk 7 false 3 5).transmit then TX else RX)
    ∧ (changeChannel (AirDcc.mk 7 false 3 5) 2).state
        = AirDcc.mk 7 false 2 5
    ∧ (changeChannel (AirDcc.mk 7 false 3 5) 2).oob = false
    ∧ Event.delayMs 100 ∉ (changeChannel (AirDcc.mk 7 false 3 5) 2).trace
    ∧ ¬ List.IsInfix (initData.map Event.transfer)
          (changeChannel (AirDcc.mk 7 false 3 5) 2).trace) :=
  ⟨by decide, by decide,
    changeChannel_sequence (AirDcc.mk 7 false 3 5) 2 (by decide) (by decide)⟩

/-- C6: channel ordinal 16 resolves to the channel table's final entry
0x37 and power ordinal 10 to the power table's final entry 0xC0 (both
reach the bus), but ordinals 17 and 11 are NOT rejected: the code indexes
past the 17- and 11-entry tables (the out-of-bounds flag is set), an
unchecked undefined read. -/
theorem table_boundaries_and_missing_guard :
    channels.length = 17 ∧ powers.length = 11
  ∧ channels.getD 16 0 = 0x37 ∧ powers.getD 10 0 = 0xC0
  ∧ (startModem (AirDcc.mk 7 false 0 0) 16 true 10).trace
      = specStartSequence 7 0xC0 0x37 TX
  ∧ (startModem (AirDcc.mk 7 false 0 0) 17 false 0).oob = true
  ∧ (startModem (AirDcc.mk 7 false 0 0) 0 true 11).oob = true := by decide

/-- Auxiliary for C7: over any call sequence, the stored
(channel, direction, power) triple equals the fold of the pushed values,
and the select line never changes. -/
theorem runOps_tracks_pushed (ops : List Op) (s : AirDcc) :
    ((runOps s ops).channel, (runOps s ops).transmit, (runOps s ops).power)
        = List.foldl pushedAfter (s.channel, s.transmit, s.power) ops
  ∧ (runOps s ops).enable_pin = s.enable_pin := by
  induction ops generalizing s with
  | nil => exact ⟨rfl, rfl⟩
  | cons op rest ih =>
      cases op <;>
        simpa [runOps, runOp, startModem, changeChannel, keepAlive, pushedAfter]
          using ih _

/-- C7: for every call sequence beginning with `startModem`, the handle's
stored channel, direction and power after the sequence equal the values
most recently pushed to the device: `startModem` pushes its three
arguments, `changeChannel` pushes only the new channel, `keepAlive`
pushes nothing. -/
theorem stored_state_reflects_last_pushed (s : AirDcc) (c : Nat) (t : Bool)
    (p : Nat) (ops : List Op) :
    ((runOps s (Op.start c t p :: ops)).channel,
     (runOps s (Op.start c t p :: ops)).transmit,
     (runOps s (Op.start c t p :: ops)).power)
        = List.foldl pushedAfter (c, t, p) ops
  ∧ (runOps s (Op.start c t p :: ops)).enable_pin = s.enable_pin := by
  have h := runOps_tracks_pushed ops ((startModem s c t p).state)
  simpa [runOps, runOp, startModem] using h

/-- C8: with in-range stored and argument ordinals, every operation's
trace keeps each byte transfer inside a select-line bracket, uses the
fixed transaction parameters (8 MHz, MSB first, mode 0) on every bus
acquisition, and ends with the select line high and the bus transaction
ended. -/
theorem framing_invariant (s : AirDcc) (c : Nat) (t : Bool) (p : Nat)
    (hc : c ≤ 16) (hp : p ≤ 10) (hsp : s.power ≤ 10) :
    framedOk s.enable_pin (startModem s c t p).trace = true
  ∧ framedOk s.enable_pin (changeChannel s c).trace = true
  ∧ framedOk s.enable_pin (keepAlive s).trace = true := by
  refine ⟨?_, ?_, ?_⟩ <;>
    simp [framedOk, startModem, changeChannel, keepAlive, initData,
      transfersBracketed, finalSelLow, fixedParams, endsWithEndTrans]

theorem framing_invariant_witness :
    (6 : Nat) ≤ 16 ∧ (5 : Nat) ≤ 10 ∧ (AirDcc.mk 7 true 3 4).power ≤ 10
  ∧ (framedOk (AirDcc.mk 7 true 3 4).enable_pin
        (startModem (AirDcc.mk 7 true 3 4) 6 true 5).trace = true
    ∧ framedOk (AirDcc.mk 7 true 3 4).enable_pin
        (changeChannel (AirDcc.mk 7 true 3 4) 6).trace = true
    ∧ framedOk (AirDcc.mk 7 true 3 4).enable_pin
        (keepAlive (AirDcc.mk 7 true 3 4)).trace = true) :=
  ⟨by decide, by decide, by decide,
    framing_invariant (AirDcc.mk 7 true 3 4) 6 true 5
      (by decide) (by decide) (by decide)⟩

theorem keepAlive_depends_only_on_direction_witness :
    (AirDcc.mk 7 true 0 0).enable_pin = (AirDcc.mk 7 true 16 10).enable_pin
  ∧ (AirDcc.mk 7 true 0 0).transmit = (AirDcc.mk 7 true 16 10).transmit
  ∧ (keepAlive (AirDcc.mk 7 true 0 0)).trace
        = (keepAlive (AirDcc.mk 7 true 16 10)).trace :=
  ⟨rfl, rfl,
    keepAlive_depends_only_on_direction (AirDcc.mk 7 true 0 0)
      (AirDcc.mk 7 true 16 10) rfl rfl⟩

end AirDcc
